import Mathlib

/-!
Shallow embedding of SmartTimers.py (a PySide6 multi-timer desktop app).

Python floats (wall-clock timestamps and the fractional remaining-seconds
counter) are modelled as rationals; Python ints as Lean integers or naturals.
Widget state is modelled as explicit records; signal emissions are modelled
as returned values (a finished flag, a record of notification effects).
-/

/-- Python format spec 02d applied to a natural number: zero-pad
to at least two digits. -/
def pad2 (n : ℕ) : String :=
  if n < 10 then "0" ++ toString n else toString n

/-- Embedding of humanize (SmartTimers.py lines 55-63): clamp negatives
to zero, then render MM:SS, or HH:MM:SS when the hour part is nonzero. -/
def humanize (seconds : ℤ) : String :=
  let sec : ℕ := seconds.toNat
  let h := sec / 3600
  let m := (sec % 3600) / 60
  let s := sec % 60
  if h ≠ 0 then pad2 h ++ ":" ++ pad2 m ++ ":" ++ pad2 s
  else pad2 m ++ ":" ++ pad2 s

/-- The action SoundPlayer.play ends in: either the QSoundEffect plays,
or the application beep fires. -/
inductive PlayAction where
  | effect : PlayAction
  | beep : PlayAction
  deriving DecidableEq, Repr

namespace SoundPlayer

/-- Embedding of SoundPlayer.play (lines 123-131). `effectAvailable` models
`self.effect` being non-None (QtMultimedia importable and construction
succeeded); `playRaises` models the stop/play calls raising. The fallback
in both cases is QApplication.beep(). -/
def play (effectAvailable : Bool) (playRaises : Bool) : PlayAction :=
  if effectAvailable && !playRaises then PlayAction.effect else PlayAction.beep

end SoundPlayer

/-- State of one TimerWidget (lines 249-402): the editable title text,
the repeat checkbox, the fractional remaining-seconds counter, the
integer total duration, the running boolean, whether the 250ms QTimer
is active, and the last wall-clock timestamp recorded (None before the
first start, modelled as Option). -/
structure TimerState where
  title : String
  repeatFlag : Bool
  remaining : ℚ
  total : ℤ
  running : Bool
  tickActive : Bool
  last : Option ℚ
  deriving DecidableEq, Repr

namespace TimerWidget

/-- Embedding of TimerWidget.__init__ (lines 253-319): the title edit gets
`title or "Timer"`, remaining := seconds, total := max(1, seconds), not
running, the tick QTimer created but not started. -/
def mk (title : String) (seconds : ℤ) (repeatFlag : Bool) : TimerState :=
  { title := if title = "" then "Timer" else title
    repeatFlag := repeatFlag
    remaining := (seconds : ℚ)
    total := max 1 seconds
    running := false
    tickActive := false
    last := none }

/-- Embedding of TimerWidget.set_seconds (lines 352-358). -/
def set_seconds (seconds : ℤ) (t : TimerState) : TimerState :=
  { t with remaining := (seconds : ℚ), total := max 1 seconds }

/-- Embedding of TimerWidget.start (lines 366-370): set running, record
the wall clock in `_last`, start the tick QTimer. -/
def start (now : ℚ) (t : TimerState) : TimerState :=
  { t with running := true, last := some now, tickActive := true }

/-- Embedding of TimerWidget.pause (lines 372-375): clear running and
stop the tick QTimer. -/
def pause (t : TimerState) : TimerState :=
  { t with running := false, tickActive := false }

/-- Embedding of TimerWidget.toggle (lines 360-364). -/
def toggle (now : ℚ) (t : TimerState) : TimerState :=
  if t.running then pause t else start now t

/-- Embedding of TimerWidget.reset (lines 377-379): pause, then
set_seconds(self.total). -/
def reset (t : TimerState) : TimerState :=
  set_seconds (pause t).total (pause t)

/-- Embedding of TimerWidget._on_tick (lines 389-402). `now` is the value
time.time() returns on this tick; `getattr(self, "_last", now)` defaults a
missing `_last` to `now`. Returns the new state and whether the finished
signal was emitted. -/
def onTick (now : ℚ) (t : TimerState) : TimerState × Bool :=
  let lastv := t.last.getD now
  let dt := now - lastv
  let rem := t.remaining - dt
  if rem ≤ 0 then
    ({ t with remaining := 0, running := false, tickActive := false,
              last := some now }, true)
  else
    ({ t with remaining := rem, last := some now }, false)

end TimerWidget

/-- The observable effects of one MainWindow._notify call (lines 596-612):
whether the sound player was asked to play, whether a tray balloon was
shown, and whether the fullscreen overlay was shown. -/
structure NotifyEffects where
  soundPlayed : Bool
  trayMessage : Bool
  overlayShown : Bool
  deriving DecidableEq, Repr

namespace MainWindow

/-- Embedding of MainWindow._notify (lines 596-612): play the sound unless
the mute checkbox is checked, show a tray balloon when a tray exists,
always construct and show the fullscreen overlay. -/
def notify (muted : Bool) (trayAvailable : Bool) : NotifyEffects :=
  { soundPlayed := !muted, trayMessage := trayAvailable, overlayShown := true }

/-- Embedding of MainWindow._on_timer_finished (lines 614-620): notify,
then for a repeating timer set_seconds(total) and start again. -/
def on_timer_finished (muted trayAvailable : Bool) (now : ℚ)
    (t : TimerState) : TimerState × NotifyEffects :=
  (if t.repeatFlag then
     TimerWidget.start now (TimerWidget.set_seconds t.total t)
   else t,
   notify muted trayAvailable)

/-- One tick of one timer as seen through the shell: TimerWidget._on_tick,
then, when the finished signal fired, MainWindow._on_timer_finished. -/
def tickStep (muted trayAvailable : Bool) (now : ℚ)
    (t : TimerState) : TimerState × Option NotifyEffects :=
  let r := TimerWidget.onTick now t
  if r.2 then
    let f := on_timer_finished muted trayAvailable now r.1
    (f.1, some f.2)
  else (r.1, none)

end MainWindow

/-- State of the MainWindow shell that the claims touch: mute checkbox,
tray availability, the timer list, overlay visibility, the add-timer form
inputs (name edit, H/M/S spin boxes, repeat checkbox) and the last status
bar message. -/
structure ShellState where
  muted : Bool
  trayAvailable : Bool
  timers : List TimerState
  overlayVisible : Bool
  name_edit : String
  h_spin : ℕ
  m_spin : ℕ
  s_spin : ℕ
  repeat_new : Bool
  statusMsg : Option String
  deriving DecidableEq, Repr

namespace MainWindow

/-- Embedding of MainWindow.add_timer (lines 574-579): construct a
TimerWidget and append it to the list layout. -/
def add_timer (title : String) (seconds : ℤ) (repeatFlag : Bool)
    (sh : ShellState) : ShellState :=
  { sh with timers := sh.timers ++ [TimerWidget.mk title seconds repeatFlag] }

/-- Embedding of MainWindow.add_timer_from_inputs (lines 562-572): reject a
zero total with a status-bar message; otherwise add a timer named from the
stripped name edit (or "Timer") and reset the form to defaults. -/
def add_timer_from_inputs (sh : ShellState) : ShellState :=
  let total : ℕ := sh.h_spin * 3600 + sh.m_spin * 60 + sh.s_spin
  if total ≤ 0 then
    { sh with statusMsg := some "Please set a duration greater than 0." }
  else
    let name := if sh.name_edit.trim = "" then "Timer" else sh.name_edit.trim
    let sh1 := add_timer name (total : ℤ) sh.repeat_new sh
    { sh1 with name_edit := "", h_spin := 0, m_spin := 0, s_spin := 0,
               repeat_new := false }

/-- Embedding of AlarmOverlay._on_snooze (lines 238-240) followed by the
connected MainWindow._on_snooze slot (lines 622-625): hide the overlay,
then add a one-off snooze timer of `minutes*60` seconds. -/
def overlaySnooze (minutes : ℤ) (sh : ShellState) : ShellState :=
  add_timer ("Snooze (" ++ toString minutes ++ " min)") (minutes * 60) false
    { sh with overlayVisible := false }

/-- Embedding of AlarmOverlay._on_dismiss (lines 242-244) with the shell
slot `lambda: None` (line 611): hide the overlay, nothing else. -/
def overlayDismiss (sh : ShellState) : ShellState :=
  { sh with overlayVisible := false }

end MainWindow

/-- The invariant of C9: every timer has total duration at least 1 and
remaining time never above the total. -/
def TimerInv (t : TimerState) : Prop :=
  1 ≤ t.total ∧ t.remaining ≤ (t.total : ℚ)

lemma TimerInv_set_seconds (s : ℤ) (t : TimerState) :
    TimerInv (TimerWidget.set_seconds s t) := by
  refine ⟨le_max_left 1 s, ?_⟩
  show (s : ℚ) ≤ ((max 1 s : ℤ) : ℚ)
  exact_mod_cast le_max_right (1 : ℤ) s

lemma TimerInv_mk (title : String) (s : ℤ) (rep : Bool) :
    TimerInv (TimerWidget.mk title s rep) := by
  refine ⟨le_max_left 1 s, ?_⟩
  show (s : ℚ) ≤ ((max 1 s : ℤ) : ℚ)
  exact_mod_cast le_max_right (1 : ℤ) s

/-- C10: humanize renders a nonnegative count below one hour as
zero-padded MM:SS, a count of an hour or more as HH:MM:SS with
HH = seconds div 3600, and any negative count as "00:00". -/
theorem humanize_spec (n : ℤ) :
    (0 ≤ n → n < 3600 →
       humanize n = pad2 (n.toNat / 60) ++ ":" ++ pad2 (n.toNat % 60)) ∧
    (3600 ≤ n →
       humanize n = pad2 (n.toNat / 3600) ++ ":" ++
         pad2 ((n.toNat % 3600) / 60) ++ ":" ++ pad2 (n.toNat % 60)) ∧
    (n < 0 → humanize n = "00:00") := by
  refine ⟨?_, ?_, ?_⟩
  · intro h0 h1
    have hlt : n.toNat < 3600 := by omega
    have hdiv : n.toNat / 3600 = 0 := Nat.div_eq_of_lt hlt
    have hmod : n.toNat % 3600 = n.toNat := Nat.mod_eq_of_lt hlt
    simp [humanize, hdiv, hmod]
  · intro h
    have hge : 3600 ≤ n.toNat := by omega
    have hpos : n.toNat / 3600 ≠ 0 := by
      have := (Nat.one_le_div_iff (by norm_num : 0 < 3600)).mpr hge
      omega
    simp [humanize, hpos]
  · intro h
    have hz : n.toNat = 0 := by omega
    simp [humanize, hz, pad2]
    rfl

theorem humanize_spec_witness :
    humanize 125 = "02:05" ∧ humanize 3725 = "01:02:05" ∧
    humanize (-3) = "00:00" := by
  refine ⟨?_, ?_, (humanize_spec (-3)).2.2 (by norm_num)⟩
  · rw [(humanize_spec 125).1 (by norm_num) (by norm_num)]; rfl
  · rw [(humanize_spec 3725).2.1 (by norm_num)]; rfl

/-- C4: one application of toggle negates the running boolean, starting
the tick callback when the timer was not running and stopping it when it
was; two consecutive toggles restore the original running state. -/
theorem toggle_involution (t : TimerState) (now now2 : ℚ) :
    (TimerWidget.toggle now t).running = !t.running ∧
    (TimerWidget.toggle now t).tickActive = !t.running ∧
    (TimerWidget.toggle now2 (TimerWidget.toggle now t)).running =
      t.running := by
  cases h : t.running <;>
    simp [TimerWidget.toggle, TimerWidget.start, TimerWidget.pause, h]

/-- C5: reset sets remaining to the total duration and leaves the timer
not running, while keeping the total, title and repeat flag unchanged. -/
theorem reset_spec (t : TimerState) (h : 1 ≤ t.total) :
    (TimerWidget.reset t).remaining = (t.total : ℚ) ∧
    (TimerWidget.reset t).running = false ∧
    (TimerWidget.reset t).total = t.total ∧
    (TimerWidget.reset t).title = t.title ∧
    (TimerWidget.reset t).repeatFlag = t.repeatFlag := by
  simp [TimerWidget.reset, TimerWidget.pause, TimerWidget.set_seconds,
        max_eq_right h]

theorem reset_spec_witness :
    (TimerWidget.reset ⟨"Tea", true, 2, 60, true, true, some 0⟩).remaining =
      ((60 : ℤ) : ℚ) ∧
    (TimerWidget.reset ⟨"Tea", true, 2, 60, true, true, some 0⟩).running =
      false ∧
    (TimerWidget.reset ⟨"Tea", true, 2, 60, true, true, some 0⟩).total = 60 ∧
    (TimerWidget.reset ⟨"Tea", true, 2, 60, true, true, some 0⟩).title =
      "Tea" ∧
    (TimerWidget.reset ⟨"Tea", true, 2, 60, true, true, some 0⟩).repeatFlag =
      true :=
  reset_spec ⟨"Tea", true, 2, 60, true, true, some 0⟩ (by norm_num)

/-- C6: a tick decreases remaining by exactly the wall-clock time elapsed
since the recorded previous timestamp; when the result reaches or passes
zero, remaining is clamped to exactly zero and the timer pauses. -/
theorem on_tick_spec (t : TimerState) (l now : ℚ) (hl : t.last = some l) :
    (0 < t.remaining - (now - l) →
       (TimerWidget.onTick now t).1.remaining = t.remaining - (now - l) ∧
       (TimerWidget.onTick now t).2 = false ∧
       (TimerWidget.onTick now t).1.running = t.running) ∧
    (t.remaining - (now - l) ≤ 0 →
       (TimerWidget.onTick now t).1.remaining = 0 ∧
       (TimerWidget.onTick now t).1.running = false ∧
       (TimerWidget.onTick now t).2 = true) := by
  constructor
  · intro hpos
    simp [TimerWidget.onTick, hl, not_le.mpr hpos]
  · intro hle
    simp [TimerWidget.onTick, hl, hle]

theorem on_tick_spec_witness :
    ((TimerWidget.onTick 3 ⟨"A", false, 10, 10, true, true, some 0⟩).1.remaining
        = 10 - (3 - 0) ∧
      (TimerWidget.onTick 3 ⟨"A", false, 10, 10, true, true, some 0⟩).2
        = false ∧
      (TimerWidget.onTick 3 ⟨"A", false, 10, 10, true, true, some 0⟩).1.running
        = true) ∧
    ((TimerWidget.onTick 2 ⟨"A", false, 1, 10, true, true, some 0⟩).1.remaining
        = 0 ∧
      (TimerWidget.onTick 2 ⟨"A", false, 1, 10, true, true, some 0⟩).1.running
        = false ∧
      (TimerWidget.onTick 2 ⟨"A", false, 1, 10, true, true, some 0⟩).2
        = true) :=
  ⟨(on_tick_spec ⟨"A", false, 10, 10, true, true, some 0⟩ 0 3 rfl).1
      (by norm_num),
   (on_tick_spec ⟨"A", false, 1, 10, true, true, some 0⟩ 0 2 rfl).2
      (by norm_num)⟩

/-- C7: playing the notification sound always ends in an action; when the
sound effect is unavailable or playing raises, it is the application beep;
and tray unavailability changes nothing of a notification except omitting
the tray balloon. -/
theorem play_fallback_spec (avail raises muted : Bool) :
    SoundPlayer.play false raises = PlayAction.beep ∧
    SoundPlayer.play avail true = PlayAction.beep ∧
    (SoundPlayer.play avail raises = PlayAction.effect ∨
     SoundPlayer.play avail raises = PlayAction.beep) ∧
    (MainWindow.notify muted false).soundPlayed =
      (MainWindow.notify muted true).soundPlayed ∧
    (MainWindow.notify muted false).overlayShown = true ∧
    (MainWindow.notify muted false).trayMessage = false := by
  cases avail <;> cases raises <;>
    simp [SoundPlayer.play, MainWindow.notify]

/-- C1 counterexample: with the mute checkbox checked, a timer expiry
fires the notification without the sound player playing, refuting the
unconditional audible cue. -/
theorem tick_expiry_mute_counterexample :
    (MainWindow.tickStep true true 2
        ⟨"Tea", false, 1, 10, true, true, some 0⟩).2 =
      some ⟨false, true, true⟩ := by
  norm_num [MainWindow.tickStep, TimerWidget.onTick,
            MainWindow.on_timer_finished, MainWindow.notify]

/-- C1 (amended): when a running timer's remaining time reaches zero
during a tick, the shell fires a notification: the sound player plays
exactly when the mute checkbox is unchecked, the fullscreen overlay is
always shown, and a tray balloon is shown exactly when a system tray is
available. -/
theorem tick_expiry_notifies (muted tray : Bool) (t : TimerState)
    (l now : ℚ) (hl : t.last = some l)
    (hz : t.remaining - (now - l) ≤ 0) :
    (MainWindow.tickStep muted tray now t).2 =
      some ⟨!muted, tray, true⟩ := by
  simp [MainWindow.tickStep, TimerWidget.onTick, hl, hz,
        MainWindow.on_timer_finished, MainWindow.notify]

theorem tick_expiry_notifies_witness :
    (MainWindow.tickStep false true 2
        ⟨"Tea", false, 1, 10, true, true, some 0⟩).2 =
      some ⟨true, true, true⟩ :=
  tick_expiry_notifies false true ⟨"Tea", false, 1, 10, true, true, some 0⟩
    0 2 rfl (by norm_num)

/-- C2: at the moment of expiry a repeat-checked timer is restored to its
full duration and running again, while an unchecked timer stays stopped
at zero. -/
theorem expiry_repeat_restart (muted tray : Bool) (t : TimerState)
    (l now : ℚ) (hl : t.last = some l)
    (hz : t.remaining - (now - l) ≤ 0) :
    (t.repeatFlag = true →
       (MainWindow.tickStep muted tray now t).1.remaining = (t.total : ℚ) ∧
       (MainWindow.tickStep muted tray now t).1.running = true) ∧
    (t.repeatFlag = false →
       (MainWindow.tickStep muted tray now t).1.remaining = 0 ∧
       (MainWindow.tickStep muted tray now t).1.running = false) := by
  constructor <;> intro hr <;>
    simp [MainWindow.tickStep, TimerWidget.onTick, hl, hz,
          MainWindow.on_timer_finished, MainWindow.notify,
          TimerWidget.set_seconds, TimerWidget.start, hr]

theorem expiry_repeat_restart_witness :
    ((MainWindow.tickStep false false 2
        ⟨"A", true, 1, 10, true, true, some 0⟩).1.remaining =
          ((10 : ℤ) : ℚ) ∧
      (MainWindow.tickStep false false 2
        ⟨"A", true, 1, 10, true, true, some 0⟩).1.running = true) ∧
    ((MainWindow.tickStep false false 2
        ⟨"A", false, 1, 10, true, true, some 0⟩).1.remaining = 0 ∧
      (MainWindow.tickStep false false 2
        ⟨"A", false, 1, 10, true, true, some 0⟩).1.running = false) :=
  ⟨(expiry_repeat_restart false false ⟨"A", true, 1, 10, true, true, some 0⟩
      0 2 rfl (by norm_num)).1 rfl,
   (expiry_repeat_restart false false ⟨"A", false, 1, 10, true, true, some 0⟩
      0 2 rfl (by norm_num)).2 rfl⟩

/-- C3: a snooze of m minutes (m is 5 or 10) hides the overlay and appends
exactly one non-repeating timer of duration m*60 seconds to the timer
list; dismiss hides the overlay and adds no timer. -/
theorem snooze_dismiss_spec (sh : ShellState) (m : ℤ)
    (hm : m = 5 ∨ m = 10) :
    (MainWindow.overlaySnooze m sh).overlayVisible = false ∧
    (MainWindow.overlaySnooze m sh).timers =
      sh.timers ++
        [TimerWidget.mk ("Snooze (" ++ toString m ++ " min)") (m * 60)
          false] ∧
    (TimerWidget.mk ("Snooze (" ++ toString m ++ " min)") (m * 60)
        false).total = m * 60 ∧
    (TimerWidget.mk ("Snooze (" ++ toString m ++ " min)") (m * 60)
        false).remaining = ((m * 60 : ℤ) : ℚ) ∧
    (TimerWidget.mk ("Snooze (" ++ toString m ++ " min)") (m * 60)
        false).repeatFlag = false ∧
    (MainWindow.overlayDismiss sh).overlayVisible = false ∧
    (MainWindow.overlayDismiss sh).timers = sh.timers := by
  rcases hm with rfl | rfl <;>
    simp [MainWindow.overlaySnooze, MainWindow.add_timer,
          MainWindow.overlayDismiss, TimerWidget.mk]

theorem snooze_dismiss_spec_witness :
    (MainWindow.overlaySnooze 5
        ⟨false, false, [], true, "", 0, 0, 0, false, none⟩).overlayVisible =
      false ∧
    (MainWindow.overlaySnooze 5
        ⟨false, false, [], true, "", 0, 0, 0, false, none⟩).timers =
      [] ++
        [TimerWidget.mk ("Snooze (" ++ toString (5 : ℤ) ++ " min)")
          (5 * 60) false] ∧
    (TimerWidget.mk ("Snooze (" ++ toString (5 : ℤ) ++ " min)") (5 * 60)
        false).total = 5 * 60 ∧
    (TimerWidget.mk ("Snooze (" ++ toString (5 : ℤ) ++ " min)") (5 * 60)
        false).remaining = ((5 * 60 : ℤ) : ℚ) ∧
    (TimerWidget.mk ("Snooze (" ++ toString (5 : ℤ) ++ " min)") (5 * 60)
        false).repeatFlag = false ∧
    (MainWindow.overlayDismiss
        ⟨false, false, [], true, "", 0, 0, 0, false, none⟩).overlayVisible =
      false ∧
    (MainWindow.overlayDismiss
        ⟨false, false, [], true, "", 0, 0, 0, false, none⟩).timers = [] :=
  snooze_dismiss_spec ⟨false, false, [], true, "", 0, 0, 0, false, none⟩ 5
    (Or.inl rfl)

/-- C8: submitting the add-timer form with a zero H/M/S sum only sets the
status message, leaving timers and every form input unchanged; with a
positive sum it appends exactly one timer of that duration named from the
trimmed name edit (or "Timer" when blank) and resets the form to its
defaults. -/
theorem add_timer_from_inputs_spec (sh : ShellState) :
    (sh.h_spin * 3600 + sh.m_spin * 60 + sh.s_spin = 0 →
       MainWindow.add_timer_from_inputs sh =
         { sh with
             statusMsg := some "Please set a duration greater than 0." }) ∧
    (0 < sh.h_spin * 3600 + sh.m_spin * 60 + sh.s_spin →
       (MainWindow.add_timer_from_inputs sh).timers =
         sh.timers ++
           [TimerWidget.mk
             (if sh.name_edit.trim = "" then "Timer" else sh.name_edit.trim)
             ((sh.h_spin * 3600 + sh.m_spin * 60 + sh.s_spin : ℕ) : ℤ)
             sh.repeat_new] ∧
       (TimerWidget.mk
           (if sh.name_edit.trim = "" then "Timer" else sh.name_edit.trim)
           ((sh.h_spin * 3600 + sh.m_spin * 60 + sh.s_spin : ℕ) : ℤ)
           sh.repeat_new).total =
         ((sh.h_spin * 3600 + sh.m_spin * 60 + sh.s_spin : ℕ) : ℤ) ∧
       (MainWindow.add_timer_from_inputs sh).name_edit = "" ∧
       (MainWindow.add_timer_from_inputs sh).h_spin = 0 ∧
       (MainWindow.add_timer_from_inputs sh).m_spin = 0 ∧
       (MainWindow.add_timer_from_inputs sh).s_spin = 0 ∧
       (MainWindow.add_timer_from_inputs sh).repeat_new = false) := by
  constructor
  · intro h
    simp [MainWindow.add_timer_from_inputs, h]
  · intro h
    have hne : ¬ (sh.h_spin * 3600 + sh.m_spin * 60 + sh.s_spin ≤ 0) := by
      omega
    have hmax :
        max (1 : ℤ) ((sh.h_spin * 3600 + sh.m_spin * 60 + sh.s_spin : ℕ) : ℤ)
          = ((sh.h_spin * 3600 + sh.m_spin * 60 + sh.s_spin : ℕ) : ℤ) := by
      apply max_eq_right
      exact_mod_cast h
    simp [MainWindow.add_timer_from_inputs, hne, MainWindow.add_timer,
          TimerWidget.mk, hmax]
    omega

theorem add_timer_from_inputs_spec_witness :
    (MainWindow.add_timer_from_inputs
        ⟨false, false, [], false, "x", 0, 0, 0, true, none⟩ =
      ⟨false, false, [], false, "x", 0, 0, 0, true,
        some "Please set a duration greater than 0."⟩) ∧
    ((MainWindow.add_timer_from_inputs
        ⟨false, false, [], false, "  Tea ", 0, 1, 30, true, none⟩).timers =
      [] ++
        [TimerWidget.mk
          (if ("  Tea ").trim = "" then "Timer" else ("  Tea ").trim)
          ((0 * 3600 + 1 * 60 + 30 : ℕ) : ℤ) true] ∧
      (TimerWidget.mk
          (if ("  Tea ").trim = "" then "Timer" else ("  Tea ").trim)
          ((0 * 3600 + 1 * 60 + 30 : ℕ) : ℤ) true).total =
        ((0 * 3600 + 1 * 60 + 30 : ℕ) : ℤ) ∧
      (MainWindow.add_timer_from_inputs
        ⟨false, false, [], false, "  Tea ", 0, 1, 30, true, none⟩).name_edit =
        "" ∧
      (MainWindow.add_timer_from_inputs
        ⟨false, false, [], false, "  Tea ", 0, 1, 30, true, none⟩).h_spin =
        0 ∧
      (MainWindow.add_timer_from_inputs
        ⟨false, false, [], false, "  Tea ", 0, 1, 30, true, none⟩).m_spin =
        0 ∧
      (MainWindow.add_timer_from_inputs
        ⟨false, false, [], false, "  Tea ", 0, 1, 30, true, none⟩).s_spin =
        0 ∧
      (MainWindow.add_timer_from_inputs
        ⟨false, false, [], false, "  Tea ", 0, 1, 30, true, none⟩).repeat_new =
        false) :=
  ⟨(add_timer_from_inputs_spec
      ⟨false, false, [], false, "x", 0, 0, 0, true, none⟩).1 rfl,
   (add_timer_from_inputs_spec
      ⟨false, false, [], false, "  Tea ", 0, 1, 30, true, none⟩).2
      (by norm_num)⟩

/-- C9 counterexample: a tick whose wall clock went backwards (recorded
last timestamp 5, current time 3) computes a negative dt and raises
remaining to 12, above the total of 10, so the invariant is not preserved
by every tick unconditionally. -/
theorem timer_invariant_tick_counterexample :
    TimerInv ⟨"T", false, 10, 10, true, true, some 5⟩ ∧
    (TimerWidget.onTick 3
        ⟨"T", false, 10, 10, true, true, some 5⟩).1.remaining = 12 ∧
    ¬ TimerInv
        (TimerWidget.onTick 3 ⟨"T", false, 10, 10, true, true, some 5⟩).1 := by
  refine ⟨⟨by norm_num, by norm_num⟩, ?_, ?_⟩
  · norm_num [TimerWidget.onTick]
  · intro h
    have h2 := h.2
    norm_num [TimerWidget.onTick] at h2

/-- C9 (amended): the per-timer invariant (total at least 1, remaining at
most the total) holds after construction and is preserved by set_seconds,
start, pause, reset, the repeat-restart of the finished handler, and every
tick whose wall-clock reading is not earlier than the recorded previous
timestamp; constructing or setting a timer to 0 seconds yields a total
of 1. -/
theorem timer_invariant (muted tray : Bool) (title : String) (sec : ℤ)
    (rep : Bool) (t : TimerState) (now : ℚ)
    (hinv : TimerInv t) (hlast : ∀ l, t.last = some l → l ≤ now) :
    TimerInv (TimerWidget.mk title sec rep) ∧
    (TimerWidget.mk title 0 rep).total = 1 ∧
    TimerInv (TimerWidget.set_seconds sec t) ∧
    (TimerWidget.set_seconds 0 t).total = 1 ∧
    TimerInv (TimerWidget.start now t) ∧
    TimerInv (TimerWidget.pause t) ∧
    TimerInv (TimerWidget.reset t) ∧
    TimerInv (MainWindow.on_timer_finished muted tray now t).1 ∧
    TimerInv (TimerWidget.onTick now t).1 := by
  obtain ⟨h1, h2⟩ := hinv
  have h1q : (1 : ℚ) ≤ (t.total : ℚ) := by exact_mod_cast h1
  have hd : t.last.getD now ≤ now := by
    cases ho : t.last with
    | none => simp
    | some l => simpa using hlast l ho
  refine ⟨TimerInv_mk title sec rep, by norm_num [TimerWidget.mk],
    TimerInv_set_seconds sec t, by norm_num [TimerWidget.set_seconds],
    ⟨h1, h2⟩, ⟨h1, h2⟩,
    TimerInv_set_seconds (TimerWidget.pause t).total (TimerWidget.pause t),
    ?_, ?_⟩
  · cases hr : t.repeatFlag with
    | true =>
        simp only [MainWindow.on_timer_finished, hr, if_true]
        exact TimerInv_set_seconds t.total t
    | false =>
        simp only [MainWindow.on_timer_finished, hr]
        exact ⟨h1, h2⟩
  · by_cases hc : t.remaining - (now - t.last.getD now) ≤ 0
    · simp only [TimerWidget.onTick]
      rw [if_pos hc]
      refine ⟨h1, ?_⟩
      show (0 : ℚ) ≤ (t.total : ℚ)
      linarith
    · simp only [TimerWidget.onTick]
      rw [if_neg hc]
      refine ⟨h1, ?_⟩
      show t.remaining - (now - t.last.getD now) ≤ (t.total : ℚ)
      linarith

theorem timer_invariant_witness :
    TimerInv (TimerWidget.mk "X" 7 false) ∧
    (TimerWidget.mk "X" 0 false).total = 1 ∧
    TimerInv (TimerWidget.set_seconds 7
      ⟨"T", true, 3, 5, true, true, some 1⟩) ∧
    (TimerWidget.set_seconds 0 ⟨"T", true, 3, 5, true, true, some 1⟩).total =
      1 ∧
    TimerInv (TimerWidget.start 2 ⟨"T", true, 3, 5, true, true, some 1⟩) ∧
    TimerInv (TimerWidget.pause ⟨"T", true, 3, 5, true, true, some 1⟩) ∧
    TimerInv (TimerWidget.reset ⟨"T", true, 3, 5, true, true, some 1⟩) ∧
    TimerInv (MainWindow.on_timer_finished false false 2
      ⟨"T", true, 3, 5, true, true, some 1⟩).1 ∧
    TimerInv (TimerWidget.onTick 2 ⟨"T", true, 3, 5, true, true, some 1⟩).1 :=
  timer_invariant false false "X" 7 false
    ⟨"T", true, 3, 5, true, true, some 1⟩ 2
    ⟨by norm_num, by norm_num⟩
    (by
      intro l hl
      simp only [Option.some.injEq] at hl
      rw [← hl]
      norm_num)
